import Mathlib

/-!
Shallow embedding of the row-decoding layer in src/executor/query.rs of this
repository: the row carrier QueryResultRow, the two-level error model
TryGetError, the macro-generated capability families try_getable_all,
try_getable_unsigned, try_getable_mysql and try_getable_postgres, the
nullable adapter for Option, the flattening conversion into DbErr, and the
hand-written Decimal implementation.

Rust values of type Result are embedded as Except; a body that can also
abort through the panic macro is embedded into the Outcome type, whose
third constructor records the abort message and is distinct from every
returned Result. The embedding is generic in the decoded Rust type, which
the macro families also are: each family is one generic body instantiated
per concrete type, with the type name passed where the source interpolates
it into an abort message.
-/

/-- Modelled from the spec: DbErr, the top-level error type of the
surrounding application, lives outside this file of the repository. The
spec calls it an opaque lower-level error wrapped without modification;
source code here constructs only the Query variant. -/
inductive DbErr where
  | Conn (msg : String)
  | Exec (msg : String)
  | Query (msg : String)
  deriving DecidableEq, Repr

/-- The two-level decode error of query.rs: a wrapped DbErr, or the Null
signal for a present column whose SQL value is NULL. -/
inductive TryGetError where
  | DbErr (e : DbErr)
  | Null
  deriving DecidableEq, Repr

/-- Embeds the From conversion of TryGetError into DbErr in query.rs: the
DbErr variant passes through unchanged, Null becomes a Query error with
the fixed message written in the source. -/
def DbErr.ofTryGetError : TryGetError → DbErr
  | TryGetError.DbErr e => e
  | TryGetError.Null => DbErr.Query "error occurred while decoding: Null"

/-- Modelled from the spec: the native driver error type of the sqlx layer,
outside this repository; only its message is observable through the
conversion into DbErr. -/
structure SqlxError where
  msg : String
  deriving DecidableEq, Repr

/-- Modelled from the spec: a native sqlx row viewed at the requested
decoded type. Requesting a column as an optionally present native value
yields a driver error, or the value when present, or its absence when the
SQL value is NULL. The debugRepr field models the output of the native
Debug rendering of the row object. -/
structure SqlxRow (α : Type) where
  tryGet : String → Except SqlxError (Option α)
  debugRepr : String

/-- Modelled from the spec: the outcome of direct structural extraction
from a mock row, which either succeeds or fails because the key is missing
or because the stored value has a different type. -/
inductive MockGetResult (α : Type) where
  | ok (v : α)
  | missingKey
  | wrongType
  deriving DecidableEq, Repr

/-- Modelled from the spec: the mock row type of the test layer of this
repository, outside this file; extraction of a key yields a MockGetResult,
and debugRepr models its native Debug rendering. -/
structure MockRow (α : Type) where
  tryGet : String → MockGetResult α
  debugRepr : String

/-- The row carrier of query.rs: exactly one backend-native row object, or
a mock row, viewed at the requested decoded type. -/
inductive QueryResultRow (α : Type) where
  | SqlxMySql (row : SqlxRow α)
  | SqlxPostgres (row : SqlxRow α)
  | SqlxSqlite (row : SqlxRow α)
  | Mock (row : MockRow α)

/-- QueryResult of query.rs, wrapping the row carrier. -/
structure QueryResult (α : Type) where
  row : QueryResultRow α

/-- Result of running a try_get body: an ordinary Rust Result that is Ok,
an ordinary Rust Result that is Err, or a fatal abort through the panic
macro carrying its message. The abort is a distinct outcome because the
source never represents it as a Result. -/
inductive Outcome (α : Type) where
  | ok (v : α)
  | err (e : TryGetError)
  | panic (msg : String)
  deriving DecidableEq, Repr

/-- Lift an ordinary Result into an Outcome. -/
def Outcome.ofExcept {α : Type} : Except TryGetError α → Outcome α
  | Except.ok v => Outcome.ok v
  | Except.error e => Outcome.err e

/-- Outcome of QueryResult.try_get, whose error level is the flattened
DbErr; an abort inside the inner decode propagates. -/
inductive DbOutcome (α : Type) where
  | ok (v : α)
  | err (e : DbErr)
  | panic (msg : String)
  deriving DecidableEq, Repr

/-- Modelled from the spec: crate sqlx_error_to_query_err lives in the
driver layer of this repository, outside this file; per the spec a native
driver error maps to the wrapped DbErr. -/
def sqlx_error_to_query_err (e : SqlxError) : TryGetError :=
  TryGetError.DbErr (DbErr.Query e.msg)

/-- The real-backend arm shared by the macro families in query.rs:
request the column as an optionally present native value, map a driver
error through sqlx_error_to_query_err, and map a present absence to Null. -/
def sqlxBranch {α : Type} (row : SqlxRow α) (column : String) :
    Except TryGetError α :=
  match row.tryGet column with
  | Except.error e => Except.error (sqlx_error_to_query_err e)
  | Except.ok none => Except.error TryGetError.Null
  | Except.ok (some v) => Except.ok v

/-- The mock arm shared by the macro families in query.rs: any extraction
failure of the mock row is mapped to Null. -/
def mockBranch {α : Type} (row : MockRow α) (column : String) :
    Except TryGetError α :=
  match row.tryGet column with
  | MockGetResult.ok v => Except.ok v
  | MockGetResult.missingKey => Except.error TryGetError.Null
  | MockGetResult.wrongType => Except.error TryGetError.Null

/-- The body of the try_getable_all macro of query.rs: the column key is
the prefix concatenated with the column name, and every variant extracts. -/
def try_getable_all {α : Type} (res : QueryResult α) (pre col : String) :
    Outcome α :=
  let column := pre ++ col
  match res.row with
  | QueryResultRow.SqlxMySql row => Outcome.ofExcept (sqlxBranch row column)
  | QueryResultRow.SqlxPostgres row => Outcome.ofExcept (sqlxBranch row column)
  | QueryResultRow.SqlxSqlite row => Outcome.ofExcept (sqlxBranch row column)
  | QueryResultRow.Mock row => Outcome.ofExcept (mockBranch row column)

/-- The body of the try_getable_unsigned macro of query.rs, instantiated at
u8 and u16: the Postgres variant aborts with the type name and backend name. -/
def try_getable_unsigned {α : Type} (typeName : String) (res : QueryResult α)
    (pre col : String) : Outcome α :=
  let column := pre ++ col
  match res.row with
  | QueryResultRow.SqlxMySql row => Outcome.ofExcept (sqlxBranch row column)
  | QueryResultRow.SqlxPostgres _ =>
      Outcome.panic (typeName ++ " unsupported by sqlx-postgres")
  | QueryResultRow.SqlxSqlite row => Outcome.ofExcept (sqlxBranch row column)
  | QueryResultRow.Mock row => Outcome.ofExcept (mockBranch row column)

/-- The body of the try_getable_mysql macro of query.rs, instantiated at
u64: the Postgres and Sqlite variants abort with the type name and backend
name. -/
def try_getable_mysql {α : Type} (typeName : String) (res : QueryResult α)
    (pre col : String) : Outcome α :=
  let column := pre ++ col
  match res.row with
  | QueryResultRow.SqlxMySql row => Outcome.ofExcept (sqlxBranch row column)
  | QueryResultRow.SqlxPostgres _ =>
      Outcome.panic (typeName ++ " unsupported by sqlx-postgres")
  | QueryResultRow.SqlxSqlite _ =>
      Outcome.panic (typeName ++ " unsupported by sqlx-sqlite")
  | QueryResultRow.Mock row => Outcome.ofExcept (mockBranch row column)

/-- The body of the try_getable_postgres macro of query.rs, instantiated at
the timezone-aware chrono timestamp: the MySql and Sqlite variants abort
with the type name and backend name. -/
def try_getable_postgres {α : Type} (typeName : String) (res : QueryResult α)
    (pre col : String) : Outcome α :=
  let column := pre ++ col
  match res.row with
  | QueryResultRow.SqlxMySql _ =>
      Outcome.panic (typeName ++ " unsupported by sqlx-mysql")
  | QueryResultRow.SqlxPostgres row => Outcome.ofExcept (sqlxBranch row column)
  | QueryResultRow.SqlxSqlite _ =>
      Outcome.panic (typeName ++ " unsupported by sqlx-sqlite")
  | QueryResultRow.Mock row => Outcome.ofExcept (mockBranch row column)

/-- The TryGetable implementation for Option in query.rs, generic in the
inner decode: Ok becomes Ok Some, Null becomes Ok None, any other error
propagates unchanged; an abort inside the inner decode propagates. -/
def optionTryGet {α : Type} (tg : QueryResult α → String → String → Outcome α)
    (res : QueryResult α) (pre col : String) : Outcome (Option α) :=
  match tg res pre col with
  | Outcome.ok v => Outcome.ok (some v)
  | Outcome.err TryGetError.Null => Outcome.ok none
  | Outcome.err e => Outcome.err e
  | Outcome.panic m => Outcome.panic m

/-- QueryResult.try_get of query.rs, generic in the TryGetable
implementation: the question-mark operator flattens a TryGetError into
DbErr through the From conversion. -/
def QueryResult.tryGet {α : Type}
    (tg : QueryResult α → String → String → Outcome α)
    (res : QueryResult α) (pre col : String) : DbOutcome α :=
  match tg res pre col with
  | Outcome.ok v => DbOutcome.ok v
  | Outcome.err e => DbOutcome.err (DbErr.ofTryGetError e)
  | Outcome.panic m => DbOutcome.panic m

/-- Outcome of the Debug formatting of the row carrier: a rendered string,
or a fatal abort. -/
inductive FmtResult where
  | ok (s : String)
  | panic (msg : String)
  deriving DecidableEq, Repr

/-- The Debug implementation for QueryResultRow in query.rs: the MySql and
mock variants delegate to the native Debug rendering of the row, the
Postgres and Sqlite variants abort with the messages written in the source. -/
def QueryResultRow.fmtDebug {α : Type} : QueryResultRow α → FmtResult
  | QueryResultRow.SqlxMySql row => FmtResult.ok row.debugRepr
  | QueryResultRow.SqlxPostgres _ =>
      FmtResult.panic "QueryResultRow::SqlxPostgres cannot be inspected"
  | QueryResultRow.SqlxSqlite _ =>
      FmtResult.panic "QueryResultRow::SqlxSqlite cannot be inspected"
  | QueryResultRow.Mock row => FmtResult.ok row.debugRepr

/-- The arbitrary-precision decimal type, modelled from the spec by its
exact rational value; the external crate stores a 96-bit mantissa with a
scale of at most 28 decimal digits. -/
structure Decimal where
  val : ℚ
  deriving DecidableEq, Repr

/-- Modelled from the spec: a double-precision float column value, as the
spec speaks of it, is either a finite numeric value or not finite. -/
inductive F64 where
  | finite (q : ℚ)
  | nonFinite
  deriving DecidableEq, Repr

/-- Modelled from the spec: the conversion of a double into the decimal
representation, from the external decimal crate, succeeds exactly on
finite values representable at a scale of at most 28 with a mantissa
below 2 to the 96, and fails otherwise. -/
def Decimal.from_f64 : F64 → Option Decimal
  | F64.nonFinite => none
  | F64.finite q =>
      if 10 ^ 28 % q.den = 0 ∧ q.num.natAbs * (10 ^ 28 / q.den) < 2 ^ 96 then
        some ⟨q⟩
      else
        none

/-- The SqlxMySql arm of the hand-written TryGetable implementation for
Decimal in query.rs, exactly as written there: the column key is the
prefix concatenated with the column name, the column is requested as an
optionally present Decimal, a driver error is mapped through
sqlx_error_to_query_err, and the resulting optional value is returned
unchanged. Unlike every macro-generated real-backend arm, no step maps a
present absence to Null, so the value of this arm has the optional type
rather than the Result of Decimal the enclosing function declares. -/
def Decimal.tryGetSqlxMySqlBranch (row : SqlxRow Decimal) (pre col : String) :
    Except TryGetError (Option Decimal) :=
  let column := pre ++ col
  match row.tryGet column with
  | Except.error e => Except.error (sqlx_error_to_query_err e)
  | Except.ok opt => Except.ok opt

/-- The SqlxPostgres arm of the hand-written TryGetable implementation for
Decimal in query.rs, identical in shape to the SqlxMySql arm and likewise
returning the optional value unchanged with no mapping of absence to Null. -/
def Decimal.tryGetSqlxPostgresBranch (row : SqlxRow Decimal) (pre col : String) :
    Except TryGetError (Option Decimal) :=
  let column := pre ++ col
  match row.tryGet column with
  | Except.error e => Except.error (sqlx_error_to_query_err e)
  | Except.ok opt => Except.ok opt

/-- The SqlxSqlite arm of the hand-written TryGetable implementation for
Decimal in query.rs: the column is read as an optional double, a driver
error propagates through sqlx_error_to_query_err, absence is Null, and a
present value is converted through Decimal.from_f64, a failed conversion
yielding the decode error with the fixed message written in the source,
carried at the DbErr level of the two-level error as the declared Result
type requires. -/
def Decimal.tryGetSqlxSqlite (row : SqlxRow F64) (pre col : String) :
    Except TryGetError Decimal :=
  let column := pre ++ col
  match row.tryGet column with
  | Except.error e => Except.error (sqlx_error_to_query_err e)
  | Except.ok (some v) =>
      match Decimal.from_f64 v with
      | some d => Except.ok d
      | none =>
          Except.error
            (TryGetError.DbErr (DbErr.Query "Failed to convert f64 into Decimal"))
  | Except.ok none => Except.error TryGetError.Null

/-- The Mock arm of the hand-written TryGetable implementation for Decimal
in query.rs, the same mock extraction as the macro families, on the column
key formed by concatenation. -/
def Decimal.tryGetMock (row : MockRow Decimal) (pre col : String) :
    Except TryGetError Decimal :=
  mockBranch row (pre ++ col)

/-- A native row holding the given value in every column. -/
def sqlxValueRow {α : Type} (v : α) : SqlxRow α :=
  ⟨fun _ => Except.ok (some v), "row"⟩

/-- A native row whose every column is SQL NULL. -/
def sqlxNullRow (α : Type) : SqlxRow α :=
  ⟨fun _ => Except.ok none, "row"⟩

/-- A native row whose every request fails with a driver error. -/
def sqlxFailRow (α : Type) (msg : String) : SqlxRow α :=
  ⟨fun _ => Except.error ⟨msg⟩, "row"⟩

/-- A mock row holding the given value under every key. -/
def mockValueRow {α : Type} (v : α) : MockRow α :=
  ⟨fun _ => MockGetResult.ok v, "mock"⟩

/-- A mock row in which every key is missing. -/
def mockMissingKeyRow (α : Type) : MockRow α :=
  ⟨fun _ => MockGetResult.missingKey, "mock"⟩

/-- A mock row in which every key holds a value of a different type. -/
def mockWrongTypeRow (α : Type) : MockRow α :=
  ⟨fun _ => MockGetResult.wrongType, "mock"⟩

/-- The rational number 3.14, given by numerator 157 and denominator 50 in
lowest terms, used as the concrete stored float of the spec. -/
def rat_3_14 : ℚ := ⟨157, 50, by decide, by decide⟩

deriving instance DecidableEq for Except

/-- C4: for every capability family, a row-carrier variant whose backend
does not support the family makes try_get abort with the type name and the
backend name interpolated into the message, and the result is the abort
outcome rather than any Result: u8 and u16 on the Postgres variant, u64 on
the Postgres and Sqlite variants, the timezone-aware timestamp on the
MySql and Sqlite variants. -/
theorem unsupported_backend_aborts {α : Type} (typeName : String)
    (r : SqlxRow α) (pre col : String) :
    try_getable_unsigned typeName ⟨QueryResultRow.SqlxPostgres r⟩ pre col =
        Outcome.panic (typeName ++ " unsupported by sqlx-postgres")
  ∧ try_getable_mysql typeName ⟨QueryResultRow.SqlxPostgres r⟩ pre col =
        Outcome.panic (typeName ++ " unsupported by sqlx-postgres")
  ∧ try_getable_mysql typeName ⟨QueryResultRow.SqlxSqlite r⟩ pre col =
        Outcome.panic (typeName ++ " unsupported by sqlx-sqlite")
  ∧ try_getable_postgres typeName ⟨QueryResultRow.SqlxMySql r⟩ pre col =
        Outcome.panic (typeName ++ " unsupported by sqlx-mysql")
  ∧ try_getable_postgres typeName ⟨QueryResultRow.SqlxSqlite r⟩ pre col =
        Outcome.panic (typeName ++ " unsupported by sqlx-sqlite") :=
  ⟨rfl, rfl, rfl, rfl, rfl⟩

/-- C9: Debug formatting of the row carrier delegates to the native Debug
rendering for the MySql and mock variants and aborts fatally for the
Postgres and Sqlite variants, with the messages written in the source. -/
theorem row_debug_formatting {α : Type} (r : SqlxRow α) (m : MockRow α) :
    QueryResultRow.fmtDebug (QueryResultRow.SqlxMySql r) =
        FmtResult.ok r.debugRepr
  ∧ QueryResultRow.fmtDebug (QueryResultRow.Mock m) =
        FmtResult.ok m.debugRepr
  ∧ QueryResultRow.fmtDebug (QueryResultRow.SqlxPostgres r) =
        FmtResult.panic "QueryResultRow::SqlxPostgres cannot be inspected"
  ∧ QueryResultRow.fmtDebug (QueryResultRow.SqlxSqlite r) =
        FmtResult.panic "QueryResultRow::SqlxSqlite cannot be inspected" :=
  ⟨rfl, rfl, rfl, rfl⟩

/-- C8, counterexample: flattening the Null error does not produce the
message the claim states; the source writes a different fixed message. -/
theorem null_flatten_message_counterexample :
    DbErr.ofTryGetError TryGetError.Null ≠
      DbErr.Query "value was unexpectedly null" := by
  decide

/-- C8, amended: the flattening conversion from TryGetError into DbErr
passes every DbErr value through unchanged and converts Null into a Query
error with the message that decoding hit an unexpected Null, written in
the source as the fixed string used below; QueryResult.try_get applies
exactly this conversion to every inner error. -/
theorem error_flattening_amended :
    (∀ e : DbErr, DbErr.ofTryGetError (TryGetError.DbErr e) = e)
  ∧ DbErr.ofTryGetError TryGetError.Null =
      DbErr.Query "error occurred while decoding: Null"
  ∧ (∀ (α : Type) (res : QueryResult α) (pre col : String) (e : TryGetError),
      QueryResult.tryGet (fun _ _ _ => Outcome.err e) res pre col =
        DbOutcome.err (DbErr.ofTryGetError e)) :=
  ⟨fun _ => rfl, rfl, fun _ _ _ _ _ => rfl⟩

/-- C3: for every inner decode, the Option adapter returns Ok None exactly
when the inner decode returns the Null error, Ok Some v exactly when the
inner decode returns Ok v, and any other error unchanged exactly when the
inner decode returns that error. -/
theorem option_adapter_exact_cases {α : Type}
    (tg : QueryResult α → String → String → Outcome α)
    (res : QueryResult α) (pre col : String) :
    (optionTryGet tg res pre col = Outcome.ok none ↔
        tg res pre col = Outcome.err TryGetError.Null)
  ∧ (∀ v : α, optionTryGet tg res pre col = Outcome.ok (some v) ↔
        tg res pre col = Outcome.ok v)
  ∧ (∀ e : TryGetError, e ≠ TryGetError.Null →
        (optionTryGet tg res pre col = Outcome.err e ↔
          tg res pre col = Outcome.err e)) := by
  rcases h : tg res pre col with v | e | m
  · simp [optionTryGet, h]
  · rcases e with d | _
    · simp [optionTryGet, h]
    · simp only [optionTryGet, h]
      refine ⟨by simp, by simp, ?_⟩
      intro e hne
      constructor
      · intro hx
        exact absurd hx (by simp)
      · intro hx
        rw [Outcome.err.injEq] at hx
        exact absurd hx.symm hne
  · simp [optionTryGet, h]

/-- C10: for every inner decode, the Option adapter never returns the Null
error: when it returns an error at all, that error carries a DbErr,
because every Null produced by the inner decode is absorbed into Ok None. -/
theorem option_adapter_never_null {α : Type}
    (tg : QueryResult α → String → String → Outcome α)
    (res : QueryResult α) (pre col : String) :
    optionTryGet tg res pre col ≠ Outcome.err TryGetError.Null
  ∧ (∀ e : TryGetError, optionTryGet tg res pre col = Outcome.err e →
      ∃ d : DbErr, e = TryGetError.DbErr d) := by
  rcases h : tg res pre col with v | e | m
  · simp [optionTryGet, h]
  · rcases e with d | _
    · refine ⟨by simp [optionTryGet, h], ?_⟩
      intro e he
      simp only [optionTryGet, h] at he
      rw [Outcome.err.injEq] at he
      exact ⟨d, he.symm⟩
    · simp [optionTryGet, h]
  · simp [optionTryGet, h]

/-- C6: for every family, the column key queried is the prefix
concatenated with the column name with no separator, so any two
prefix-column splits of the same key, such as the prefix a_ with column id
against the empty prefix with column a_id, resolve identically and yield
the same result. -/
theorem column_key_is_concatenation {α : Type} (res : QueryResult α)
    (rd : SqlxRow Decimal) (rf : SqlxRow F64) (md : MockRow Decimal)
    (typeName pre col pre2 col2 : String) (h : pre ++ col = pre2 ++ col2) :
    try_getable_all res pre col = try_getable_all res pre2 col2
  ∧ try_getable_unsigned typeName res pre col =
      try_getable_unsigned typeName res pre2 col2
  ∧ try_getable_mysql typeName res pre col =
      try_getable_mysql typeName res pre2 col2
  ∧ try_getable_postgres typeName res pre col =
      try_getable_postgres typeName res pre2 col2
  ∧ Decimal.tryGetSqlxMySqlBranch rd pre col =
      Decimal.tryGetSqlxMySqlBranch rd pre2 col2
  ∧ Decimal.tryGetSqlxPostgresBranch rd pre col =
      Decimal.tryGetSqlxPostgresBranch rd pre2 col2
  ∧ Decimal.tryGetSqlxSqlite rf pre col = Decimal.tryGetSqlxSqlite rf pre2 col2
  ∧ Decimal.tryGetMock md pre col = Decimal.tryGetMock md pre2 col2 := by
  unfold try_getable_all try_getable_unsigned try_getable_mysql
    try_getable_postgres Decimal.tryGetSqlxMySqlBranch
    Decimal.tryGetSqlxPostgresBranch Decimal.tryGetSqlxSqlite Decimal.tryGetMock
  rw [h]
  exact ⟨rfl, rfl, rfl, rfl, rfl, rfl, rfl, rfl⟩

/-- C7: on the mock variant, both extraction failure kinds, the missing
key and the wrongly typed stored value, are mapped uniformly to the Null
error by every family, and the mock arm never produces an error carrying
a DbErr. -/
theorem mock_failures_collapse_to_null {α : Type} (m : MockRow α)
    (md : MockRow Decimal) (typeName pre col : String) :
    ((m.tryGet (pre ++ col) = MockGetResult.missingKey ∨
        m.tryGet (pre ++ col) = MockGetResult.wrongType) →
      try_getable_all ⟨QueryResultRow.Mock m⟩ pre col =
          Outcome.err TryGetError.Null
      ∧ try_getable_unsigned typeName ⟨QueryResultRow.Mock m⟩ pre col =
          Outcome.err TryGetError.Null
      ∧ try_getable_mysql typeName ⟨QueryResultRow.Mock m⟩ pre col =
          Outcome.err TryGetError.Null
      ∧ try_getable_postgres typeName ⟨QueryResultRow.Mock m⟩ pre col =
          Outcome.err TryGetError.Null)
  ∧ (∀ d : DbErr,
      try_getable_all ⟨QueryResultRow.Mock m⟩ pre col ≠
          Outcome.err (TryGetError.DbErr d)
      ∧ try_getable_unsigned typeName ⟨QueryResultRow.Mock m⟩ pre col ≠
          Outcome.err (TryGetError.DbErr d)
      ∧ try_getable_mysql typeName ⟨QueryResultRow.Mock m⟩ pre col ≠
          Outcome.err (TryGetError.DbErr d)
      ∧ try_getable_postgres typeName ⟨QueryResultRow.Mock m⟩ pre col ≠
          Outcome.err (TryGetError.DbErr d))
  ∧ ((md.tryGet (pre ++ col) = MockGetResult.missingKey ∨
        md.tryGet (pre ++ col) = MockGetResult.wrongType) →
      Decimal.tryGetMock md pre col = Except.error TryGetError.Null)
  ∧ (∀ d : DbErr,
      Decimal.tryGetMock md pre col ≠
        Except.error (TryGetError.DbErr d)) := by
  refine ⟨?_, ?_, ?_, ?_⟩
  · rintro (hm | hm) <;>
      simp [try_getable_all, try_getable_unsigned, try_getable_mysql,
        try_getable_postgres, mockBranch, Outcome.ofExcept, hm]
  · intro d
    rcases hm : m.tryGet (pre ++ col) with v | _ | _ <;>
      simp [try_getable_all, try_getable_unsigned, try_getable_mysql,
        try_getable_postgres, mockBranch, Outcome.ofExcept, hm]
  · rintro (hm | hm) <;> simp [Decimal.tryGetMock, mockBranch, hm]
  · intro d
    rcases hm : md.tryGet (pre ++ col) with v | _ | _ <;>
      simp [Decimal.tryGetMock, mockBranch, hm]

/-- C1: on every macro family and every variant whose backend supports it,
a column holding a present non-NULL value v decodes to Ok v; the
hand-written Decimal implementation breaks this on its MySql and Postgres
arms, which return the driver optional unchanged, so a present value d
surfaces as Ok Some d and never as the claimed Ok d, the unwrap of the
optional being absent from the source. -/
theorem present_value_decodes_ok {α : Type} (r : SqlxRow α) (m : MockRow α)
    (rd : SqlxRow Decimal) (typeName pre col : String) (v : α) (d : Decimal)
    (hr : r.tryGet (pre ++ col) = Except.ok (some v))
    (hm : m.tryGet (pre ++ col) = MockGetResult.ok v)
    (hd : rd.tryGet (pre ++ col) = Except.ok (some d)) :
    try_getable_all ⟨QueryResultRow.SqlxMySql r⟩ pre col = Outcome.ok v
  ∧ try_getable_all ⟨QueryResultRow.SqlxPostgres r⟩ pre col = Outcome.ok v
  ∧ try_getable_all ⟨QueryResultRow.SqlxSqlite r⟩ pre col = Outcome.ok v
  ∧ try_getable_all ⟨QueryResultRow.Mock m⟩ pre col = Outcome.ok v
  ∧ try_getable_unsigned typeName ⟨QueryResultRow.SqlxMySql r⟩ pre col =
      Outcome.ok v
  ∧ try_getable_unsigned typeName ⟨QueryResultRow.SqlxSqlite r⟩ pre col =
      Outcome.ok v
  ∧ try_getable_unsigned typeName ⟨QueryResultRow.Mock m⟩ pre col =
      Outcome.ok v
  ∧ try_getable_mysql typeName ⟨QueryResultRow.SqlxMySql r⟩ pre col =
      Outcome.ok v
  ∧ try_getable_mysql typeName ⟨QueryResultRow.Mock m⟩ pre col = Outcome.ok v
  ∧ try_getable_postgres typeName ⟨QueryResultRow.SqlxPostgres r⟩ pre col =
      Outcome.ok v
  ∧ try_getable_postgres typeName ⟨QueryResultRow.Mock m⟩ pre col =
      Outcome.ok v
  ∧ Decimal.tryGetSqlxMySqlBranch rd pre col = Except.ok (some d)
  ∧ Decimal.tryGetSqlxPostgresBranch rd pre col = Except.ok (some d) := by
  simp [try_getable_all, try_getable_unsigned, try_getable_mysql,
    try_getable_postgres, sqlxBranch, mockBranch, Outcome.ofExcept,
    Decimal.tryGetSqlxMySqlBranch, Decimal.tryGetSqlxPostgresBranch,
    hr, hm, hd]

/-- C2: on every macro family and every real backend variant supporting
it, a column whose SQL value is NULL decodes to the Null error, and the
Option adapter turns that into Ok None; the hand-written Decimal
implementation breaks this on its MySql and Postgres arms, which return
the driver optional unchanged, so a NULL column surfaces as Ok None of the
optional and never as the claimed Null error. -/
theorem null_signal_mapping {α : Type} (r : SqlxRow α) (rd : SqlxRow Decimal)
    (typeName pre col : String)
    (hr : r.tryGet (pre ++ col) = Except.ok none)
    (hd : rd.tryGet (pre ++ col) = Except.ok none) :
    try_getable_all ⟨QueryResultRow.SqlxMySql r⟩ pre col =
        Outcome.err TryGetError.Null
  ∧ try_getable_all ⟨QueryResultRow.SqlxPostgres r⟩ pre col =
        Outcome.err TryGetError.Null
  ∧ try_getable_all ⟨QueryResultRow.SqlxSqlite r⟩ pre col =
        Outcome.err TryGetError.Null
  ∧ try_getable_unsigned typeName ⟨QueryResultRow.SqlxMySql r⟩ pre col =
        Outcome.err TryGetError.Null
  ∧ try_getable_unsigned typeName ⟨QueryResultRow.SqlxSqlite r⟩ pre col =
        Outcome.err TryGetError.Null
  ∧ try_getable_mysql typeName ⟨QueryResultRow.SqlxMySql r⟩ pre col =
        Outcome.err TryGetError.Null
  ∧ try_getable_postgres typeName ⟨QueryResultRow.SqlxPostgres r⟩ pre col =
        Outcome.err TryGetError.Null
  ∧ optionTryGet try_getable_all ⟨QueryResultRow.SqlxMySql r⟩ pre col =
        Outcome.ok none
  ∧ Decimal.tryGetSqlxMySqlBranch rd pre col = Except.ok none
  ∧ Decimal.tryGetSqlxMySqlBranch rd pre col ≠ Except.error TryGetError.Null
  ∧ Decimal.tryGetSqlxPostgresBranch rd pre col = Except.ok none
  ∧ Decimal.tryGetSqlxPostgresBranch rd pre col ≠
        Except.error TryGetError.Null := by
  simp [try_getable_all, try_getable_unsigned, try_getable_mysql,
    try_getable_postgres, sqlxBranch, Outcome.ofExcept, optionTryGet,
    Decimal.tryGetSqlxMySqlBranch, Decimal.tryGetSqlxPostgresBranch,
    hr, hd]

/-- C5: the Decimal decode on the Sqlite variant reads the column as an
optional double: absence yields the Null error, a present convertible
value yields Ok of the converted decimal, with the stored value 3.14
decoding to the decimal equal to 3.14, and a present value whose
conversion fails yields the decode error carrying a DbErr with the fixed
message of the source, never Null. -/
theorem decimal_sqlite_fallback (rf : SqlxRow F64) (pre col : String)
    (x : F64) (d : Decimal) :
    (rf.tryGet (pre ++ col) = Except.ok none →
      Decimal.tryGetSqlxSqlite rf pre col = Except.error TryGetError.Null)
  ∧ (rf.tryGet (pre ++ col) = Except.ok (some x) →
      Decimal.from_f64 x = some d →
      Decimal.tryGetSqlxSqlite rf pre col = Except.ok d)
  ∧ (rf.tryGet (pre ++ col) = Except.ok (some x) →
      Decimal.from_f64 x = none →
      Decimal.tryGetSqlxSqlite rf pre col =
        Except.error (TryGetError.DbErr
          (DbErr.Query "Failed to convert f64 into Decimal")))
  ∧ rat_3_14 = 3.14
  ∧ Decimal.from_f64 (F64.finite rat_3_14) = some ⟨rat_3_14⟩
  ∧ Decimal.tryGetSqlxSqlite (sqlxValueRow (F64.finite rat_3_14)) "" "c" =
      Except.ok ⟨rat_3_14⟩ := by
  refine ⟨?_, ?_, ?_, ?_, ?_, ?_⟩
  · intro h
    simp [Decimal.tryGetSqlxSqlite, h]
  · intro h hc
    simp [Decimal.tryGetSqlxSqlite, h, hc]
  · intro h hc
    simp [Decimal.tryGetSqlxSqlite, h, hc]
  · rw [rat_3_14, Rat.mk'_eq_divInt, Rat.divInt_eq_div]
    norm_num
  · decide
  · decide

/-- Witness for C1 at a concrete row holding the integer five. -/
theorem present_value_decodes_ok_witness :
    try_getable_all ⟨QueryResultRow.SqlxMySql (sqlxValueRow (5 : ℤ))⟩ "a_" "id" =
      Outcome.ok 5 :=
  (present_value_decodes_ok (sqlxValueRow (5 : ℤ)) (mockValueRow (5 : ℤ))
    (sqlxValueRow ⟨rat_3_14⟩) "u8" "a_" "id" 5 ⟨rat_3_14⟩ rfl rfl rfl).1

/-- Witness for C2 at a concrete row whose column is SQL NULL. -/
theorem null_signal_mapping_witness :
    try_getable_all ⟨QueryResultRow.SqlxMySql (sqlxNullRow ℤ)⟩ "a_" "id" =
      Outcome.err TryGetError.Null :=
  (null_signal_mapping (sqlxNullRow ℤ) (sqlxNullRow Decimal) "u8" "a_" "id"
    rfl rfl).1

/-- Witness for C3 at a concrete driver failure propagated unchanged. -/
theorem option_adapter_exact_cases_witness :
    optionTryGet try_getable_all
        ⟨QueryResultRow.SqlxMySql (sqlxFailRow ℤ "boom")⟩ "" "c" =
          Outcome.err (TryGetError.DbErr (DbErr.Query "boom")) ↔
      try_getable_all ⟨QueryResultRow.SqlxMySql (sqlxFailRow ℤ "boom")⟩ "" "c" =
          Outcome.err (TryGetError.DbErr (DbErr.Query "boom")) :=
  (option_adapter_exact_cases try_getable_all
    ⟨QueryResultRow.SqlxMySql (sqlxFailRow ℤ "boom")⟩ "" "c").2.2
    (TryGetError.DbErr (DbErr.Query "boom")) (by decide)

/-- Witness for C5 at a NULL column and at a non-finite stored double. -/
theorem decimal_sqlite_fallback_witness :
    Decimal.tryGetSqlxSqlite (sqlxNullRow F64) "" "c" =
        Except.error TryGetError.Null
  ∧ Decimal.tryGetSqlxSqlite (sqlxValueRow F64.nonFinite) "" "c" =
        Except.error (TryGetError.DbErr
          (DbErr.Query "Failed to convert f64 into Decimal")) :=
  ⟨(decimal_sqlite_fallback (sqlxNullRow F64) "" "c" F64.nonFinite
      ⟨rat_3_14⟩).1 rfl,
   (decimal_sqlite_fallback (sqlxValueRow F64.nonFinite) "" "c" F64.nonFinite
      ⟨rat_3_14⟩).2.2.1 rfl rfl⟩

/-- Witness for C6: the prefix a_ with column id resolves like the empty
prefix with column a_id. -/
theorem column_key_is_concatenation_witness :
    try_getable_all ⟨QueryResultRow.SqlxMySql (sqlxValueRow (5 : ℤ))⟩ "a_" "id" =
      try_getable_all ⟨QueryResultRow.SqlxMySql (sqlxValueRow (5 : ℤ))⟩ "" "a_id" :=
  (column_key_is_concatenation ⟨QueryResultRow.SqlxMySql (sqlxValueRow (5 : ℤ))⟩
    (sqlxValueRow ⟨rat_3_14⟩) (sqlxNullRow F64) (mockValueRow ⟨rat_3_14⟩)
    "u8" "a_" "id" "" "a_id" rfl).1

/-- Witness for C7 at a missing key and at a wrongly typed stored value. -/
theorem mock_failures_collapse_to_null_witness :
    try_getable_all ⟨QueryResultRow.Mock (mockMissingKeyRow ℤ)⟩ "" "c" =
        Outcome.err TryGetError.Null
  ∧ try_getable_all ⟨QueryResultRow.Mock (mockWrongTypeRow ℤ)⟩ "" "c" =
        Outcome.err TryGetError.Null :=
  ⟨((mock_failures_collapse_to_null (mockMissingKeyRow ℤ)
      (mockMissingKeyRow Decimal) "u8" "" "c").1 (Or.inl rfl)).1,
   ((mock_failures_collapse_to_null (mockWrongTypeRow ℤ)
      (mockWrongTypeRow Decimal) "u8" "" "c").1 (Or.inr rfl)).1⟩

/-- Witness for C10 at a concrete NULL column and a concrete driver
failure. -/
theorem option_adapter_never_null_witness :
    optionTryGet try_getable_all
        ⟨QueryResultRow.SqlxMySql (sqlxNullRow ℤ)⟩ "" "c" ≠
      Outcome.err TryGetError.Null
  ∧ ∃ d : DbErr, TryGetError.DbErr (DbErr.Query "boom") = TryGetError.DbErr d :=
  ⟨(option_adapter_never_null try_getable_all
      ⟨QueryResultRow.SqlxMySql (sqlxNullRow ℤ)⟩ "" "c").1,
   (option_adapter_never_null try_getable_all
      ⟨QueryResultRow.SqlxMySql (sqlxFailRow ℤ "boom")⟩ "" "c").2
     (TryGetError.DbErr (DbErr.Query "boom")) rfl⟩
